import Mathlib

/-!
Verification of the Wheel_Finder repository (Honda_Official.py,
Toyota_Official.py, Rec_Generator.py, WheelFinder.py).

Shallow embedding conventions:
* A pandas missing value (float NaN) is `Option.none`; arithmetic over
  possibly-missing rationals propagates `none` exactly as NaN propagates
  through pandas element-wise arithmetic.
* A DataFrame is a `List` of rows; row order is list order.  The pandas
  positional index of a row is its list position.
* Python floats are modelled as `ℚ` (all numbers occurring in the pipeline
  are decimal literals and results of field arithmetic on them).
-/

namespace WheelFinder

/-- NaN-propagating addition on possibly missing rationals. -/
def oadd : Option ℚ → Option ℚ → Option ℚ
  | some a, some b => some (a + b)
  | _, _ => none

/-- NaN-propagating subtraction on possibly missing rationals. -/
def osub : Option ℚ → Option ℚ → Option ℚ
  | some a, some b => some (a - b)
  | _, _ => none

/-- NaN-propagating multiplication on possibly missing rationals. -/
def omul : Option ℚ → Option ℚ → Option ℚ
  | some a, some b => some (a * b)
  | _, _ => none

/-- NaN-propagating division on possibly missing rationals.  Division by
zero yields `none`; in `generate_recs` every division is guarded by a
`max_diff > 0` test, so that case is never reached there. -/
def odiv : Option ℚ → Option ℚ → Option ℚ
  | some a, some b => if b = 0 then none else some (a / b)
  | _, _ => none

/-- NaN-propagating absolute value. -/
def oabs : Option ℚ → Option ℚ
  | some a => some |a|
  | none => none

/-- One row of the canonical inventory `Wheelfinder_Inventory.csv` as read by
`generate_recs`: columns Model, Brand, Year, Price, CTY MPG, HWAY MPG, Size.
Numeric columns may be missing (`NA` in the csv, NaN in pandas). -/
structure Row where
  model : String
  brand : String
  year : Int
  price : Option ℚ
  cty : Option ℚ
  hway : Option ℚ
  size : Option ℚ
deriving DecidableEq

/-- WheelFinder.py line 84: `df['Avg MPG'] = df[['CTY MPG', 'HWAY MPG']].mean(axis=1)`.
`DataFrame.mean(axis=1)` has `skipna=True` by default: it averages the
values that are present, and is NaN only when every value is missing. -/
def avgMPG (r : Row) : Option ℚ :=
  match r.cty, r.hway with
  | some c, some h => some ((c + h) / 2)
  | some c, none => some c
  | none, some h => some h
  | none, none => none

/-- `Series.max()` with its default `skipna=True`: the maximum of the
present values, `none` (NaN) when all values are missing or the list is
empty. -/
def nanMax (l : List (Option ℚ)) : Option ℚ :=
  (l.filterMap id).foldl (fun acc x =>
    match acc with
    | none => some x
    | some m => some (max m x)) none

/-- WheelFinder.py line 94: `df['Score'] = 0.0`. -/
def initScores (rows : List Row) : List (Option ℚ) :=
  rows.map (fun _ => some 0)

/-- WheelFinder.py line 98: `price_diff = abs(df['Price'] - price_pref)`. -/
def priceDiffs (rows : List Row) (price_pref : ℚ) : List (Option ℚ) :=
  rows.map (fun r => oabs (osub r.price (some price_pref)))

/-- WheelFinder.py line 106: `mpg_diff = abs(df['Avg MPG'] - mpg_pref)`. -/
def mpgDiffs (rows : List Row) (mpg_pref : ℚ) : List (Option ℚ) :=
  rows.map (fun r => oabs (osub (avgMPG r) (some mpg_pref)))

/-- WheelFinder.py line 114: `size_diff = abs(df['Size'] - size_pref)`. -/
def sizeDiffs (rows : List Row) (size_pref : ℚ) : List (Option ℚ) :=
  rows.map (fun r => oabs (osub r.size (some size_pref)))

/-- One scoring block of `generate_recs` (lines 96-121).  Each of the three
blocks is, for its criterion:

    if weight > 0:
        diff = abs(df[col] - pref)
        max_diff = diff.max()
        if max_diff > 0:
            score = 1 - (diff / max_diff)
            df['Score'] += score * weight
        [size block only] else:
            df['Score'] += weight

`bonus` is `true` exactly for the size block, whose `else:` branch adds the
full weight to every row.  A NaN `max_diff` (all diffs missing) fails the
Python test `max_diff > 0`, which lands in the same branch as `max_diff == 0`. -/
def axisScores (diffs : List (Option ℚ)) (w : ℤ) (bonus : Bool)
    (scores : List (Option ℚ)) : List (Option ℚ) :=
  if 0 < w then
    match nanMax diffs with
    | some m =>
      if 0 < m then
        List.zipWith (fun s d =>
          oadd s (omul (osub (some 1) (odiv d (some m))) (some (w : ℚ)))) scores diffs
      else if bonus then scores.map (fun s => oadd s (some (w : ℚ))) else scores
    | none => if bonus then scores.map (fun s => oadd s (some (w : ℚ))) else scores
  else scores

/-- Score column after the price block (lines 97-102). -/
def priceStage (rows : List Row) (price_pref : ℚ) (price_weight : ℤ) :
    List (Option ℚ) :=
  axisScores (priceDiffs rows price_pref) price_weight false (initScores rows)

/-- Score column after the MPG block (lines 105-110). -/
def mpgStage (rows : List Row) (price_pref : ℚ) (price_weight : ℤ)
    (mpg_pref : ℚ) (mpg_weight : ℤ) : List (Option ℚ) :=
  axisScores (mpgDiffs rows mpg_pref) mpg_weight false
    (priceStage rows price_pref price_weight)

/-- Score column after the size block (lines 113-121), i.e. the final
`df['Score']` column, aligned with `rows`. -/
def scoreRows (rows : List Row) (price_pref : ℚ) (price_weight : ℤ)
    (mpg_pref : ℚ) (mpg_weight : ℤ) (size_pref : ℚ) (size_weight : ℤ) :
    List (Option ℚ) :=
  axisScores (sizeDiffs rows size_pref) size_weight true
    (mpgStage rows price_pref price_weight mpg_pref mpg_weight)

/-- The strict-weak order used by `nlargest(5, 'Score')` on rows tagged with
their position in the filtered frame: larger score first, ties by original
position.  Pandas selects with `keep='first'` and sorts the selected values
with `argsort(kind="mergesort")`, a stable sort, so the realised order on
(position, row, score) triples is exactly this lexicographic one. -/
def scoreOrd (a b : ℕ × Row × ℚ) : Prop :=
  b.2.2 < a.2.2 ∨ (b.2.2 = a.2.2 ∧ a.1 ≤ b.1)

instance : DecidableRel scoreOrd := fun a b => by
  unfold scoreOrd; exact inferInstance

instance : IsTotal (ℕ × Row × ℚ) scoreOrd :=
  ⟨by
    intro a b
    unfold scoreOrd
    rcases lt_trichotomy a.2.2 b.2.2 with h | h | h
    · exact Or.inr (Or.inl h)
    · rcases Nat.le_total a.1 b.1 with h2 | h2
      · exact Or.inl (Or.inr ⟨h.symm, h2⟩)
      · exact Or.inr (Or.inr ⟨h, h2⟩)
    · exact Or.inl (Or.inl h)⟩

instance : IsTrans (ℕ × Row × ℚ) scoreOrd :=
  ⟨by
    intro a b c hab hbc
    unfold scoreOrd at *
    rcases hab with h1 | ⟨h1, h1i⟩
    · rcases hbc with h2 | ⟨h2, _⟩
      · exact Or.inl (lt_trans h2 h1)
      · exact Or.inl (h2 ▸ h1)
    · rcases hbc with h2 | ⟨h2, h2i⟩
      · exact Or.inl (h1 ▸ h2)
      · exact Or.inr ⟨h2.trans h1, le_trans h1i h2i⟩⟩

/-- The rows whose score is numeric (not NaN), tagged with their position in
the filtered frame and their score.  These are the values `nlargest`
actually ranks; pandas drops the NaN entries first (`dropped = obj.dropna()`). -/
def tagScore (scored : List (Row × Option ℚ)) : List (ℕ × Row × ℚ) :=
  scored.enum.filterMap (fun p =>
    match p.2.2 with
    | some q => some (p.1, p.2.1, q)
    | none => none)

/-- The rows whose score is NaN, in original order (pandas
`nan_index = obj.drop(dropped.index)`). -/
def nanPart (scored : List (Row × Option ℚ)) : List Row :=
  scored.filterMap (fun p =>
    match p.2 with
    | none => some p.1
    | some _ => none)

/-- The numeric-score rows in the order `nlargest` ranks them: score
descending, ties by original position (stable). -/
def numericSorted (scored : List (Row × Option ℚ)) : List Row :=
  (List.insertionSort scoreOrd (tagScore scored)).map (fun p => p.2.1)

/-- WheelFinder.py line 124: `df.nlargest(5, 'Score')`.  Pandas semantics
(pandas/core/methods/selectn.py): the non-NaN scores are ranked descending
with stable tie-breaking and the NaN-score rows are appended after them in
original order (`concat([dropped.iloc[inds], nan_index])`), then the result
is cut to the first 5 rows. -/
def nlargest5 (scored : List (Row × Option ℚ)) : List Row :=
  (numericSorted scored ++ nanPart scored).take 5

/-- WheelFinder.py lines 87-88: `if brand_pref: df = df[df['Brand'].isin(brand_pref)]`.
An empty preference list is falsy, so no filtering happens then. -/
def brandFilter (df : List Row) (brand_pref : List String) : List Row :=
  if brand_pref.isEmpty then df else df.filter (fun r => brand_pref.contains r.brand)

/-- The filtered frame zipped with its final Score column. -/
def scoredRows (df : List Row) (brand_pref : List String) (price_pref : ℚ)
    (price_weight : ℤ) (mpg_pref : ℚ) (mpg_weight : ℤ) (size_pref : ℚ)
    (size_weight : ℤ) : List (Row × Option ℚ) :=
  (brandFilter df brand_pref).zip
    (scoreRows (brandFilter df brand_pref) price_pref price_weight mpg_pref
      mpg_weight size_pref size_weight)

/-- Result table of `generate_recs`: the column labels together with the
selected rows.  The source projects the selected rows to
`['Model', 'Brand', 'Year', 'Price', 'CTY MPG', 'HWAY MPG', 'Size']`, which
are exactly the fields of `Row`, so the rows are kept whole here and the
projection is recorded in `columns`. -/
structure RecTable where
  columns : List String
  rows : List Row
deriving DecidableEq

/-- The column labels of a non-empty `generate_recs` result (line 124-125). -/
def outputColumns : List String :=
  ["Model", "Brand", "Year", "Price", "CTY MPG", "HWAY MPG", "Size"]

/-- WheelFinder.py `generate_recs` (lines 58-127).  Computes Avg MPG, applies
the brand filter, returns `pd.DataFrame()` (a frame with no columns and no
rows) when the filtered frame is empty, otherwise scores every row and
returns the top-5 selection projected to the seven output columns.
`reset_index(drop=True)` only renumbers the index and is invisible here. -/
def generate_recs (df : List Row) (brand_pref : List String) (price_pref : ℚ)
    (price_weight : ℤ) (mpg_pref : ℚ) (mpg_weight : ℤ) (size_pref : ℚ)
    (size_weight : ℤ) : RecTable :=
  if (brandFilter df brand_pref).isEmpty then ⟨[], []⟩
  else
    ⟨outputColumns,
      nlargest5 (scoredRows df brand_pref price_pref price_weight mpg_pref
        mpg_weight size_pref size_weight)⟩

end WheelFinder

namespace Toyota

/-- Python substring test `pat in text`, on the underlying character lists:
`strStarts pat l` is true when `pat` is an initial run of `l`. -/
def strStarts : List Char → List Char → Bool
  | [], _ => true
  | _ :: _, [] => false
  | a :: as, b :: bs => a == b && strStarts as bs

/-- Python substring test `pat in text`: `pat` occurs contiguously in `l`. -/
def strIn (pat : List Char) : List Char → Bool
  | [] => strStarts pat []
  | c :: cs => strStarts pat (c :: cs) || strIn pat cs

/-- Python `kw in text` on strings. -/
def kwIn (kw text : String) : Bool :=
  strIn kw.toList text.toList

/-- One `div.details-value` tag from a Toyota car page, as consumed by
`fill_cars` and `parse_car_details`: its stripped text, and whether it holds
a `<span>` whose `type` attribute contains `"ddoa-interior-color"` (the
interior-colour marker both functions test for). -/
structure Frag where
  text : String
  interiorSpan : Bool
deriving DecidableEq

/-- A slot of a normalized 7-slot group: either an original tag or the
literal string `'NA'` that the cleaning loop appends for missing slots. -/
inductive Slot
  | tag (f : Frag)
  | na
deriving DecidableEq

/-- The text `parse_car_details` sees for a slot: `tag.get_text(strip=True)`
for a tag, and `str('NA').strip() = 'NA'` for an appended padding string. -/
def slotText : Slot → String
  | .tag f => f.text
  | .na => "NA"

/-- Whether the slot carries the interior-colour `<span>` marker.  A padding
string has no `find` attribute, so the marker test is false for it. -/
def slotSpan : Slot → Bool
  | .tag f => f.interiorSpan
  | .na => false

/-- Toyota_Official.py lines 131-136: the record-boundary test of
`fill_cars`.  A new car starts at an interior-colour marker, or, when the
current group already holds at least `EXPECTED_FIELDS_PER_CAR = 7` tags, at
a tag containing one of the body keywords. -/
def isStart (current : List Frag) (f : Frag) : Bool :=
  f.interiorSpan ||
    (!current.isEmpty && decide (7 ≤ current.length) &&
      (kwIn "Car" f.text || kwIn "Utility" f.text || kwIn "Mini-van" f.text ||
        kwIn "CrewMax" f.text))

/-- One iteration of the accumulation loop of `fill_cars` (lines 130-141):
on a boundary the non-empty current group is flushed and the tag starts a
fresh group, otherwise the tag is appended to the current group. -/
def groupStep (acc : List (List Frag) × List Frag) (f : Frag) :
    List (List Frag) × List Frag :=
  if isStart acc.2 f then
    (if acc.2.isEmpty then acc.1 else acc.1 ++ [acc.2], [f])
  else
    (acc.1, acc.2 ++ [f])

/-- The grouping phase of `fill_cars` (lines 127-143), including the final
flush of a non-empty trailing group. -/
def group_cars (l : List Frag) : List (List Frag) :=
  let acc := l.foldl groupStep ([], [])
  if acc.2.isEmpty then acc.1 else acc.1 ++ [acc.2]

/-- The cleaning loop of `fill_cars` (lines 146-155): a group with fewer
than 7 tags is right-padded with the string `'NA'` up to 7 slots, a group
with more than 7 tags is cut to its first 7, and a 7-tag group is kept. -/
def normalize_car (car : List Frag) : List Slot :=
  if car.length < 7 then
    car.map Slot.tag ++ List.replicate (7 - car.length) Slot.na
  else if 7 < car.length then
    (car.take 7).map Slot.tag
  else
    car.map Slot.tag

/-- Toyota_Official.py `fill_cars` (lines 117-156): group the flat tag
stream into per-car groups, then normalize every group to 7 slots. -/
def fill_cars (l : List Frag) : List (List Slot) :=
  (group_cars l).map normalize_car

/-- The canonical attribute dictionary built by `parse_car_details`
(lines 169-177), every field initialised to `'NA'`. -/
structure CarDict where
  interiorColor : String
  bodyType : String
  driveType : String
  mpg : String
  engine : String
  transmission : String
  modelCode : String
deriving DecidableEq

/-- The initial dictionary of `parse_car_details`. -/
def initCarDict : CarDict :=
  ⟨"NA", "NA", "NA", "NA", "NA", "NA", "NA"⟩

/-- Line 192: the body-style keyword set of `parse_car_details`. -/
def bodyKw (t : String) : Bool :=
  kwIn "Car" t || kwIn "Utility" t || kwIn "Mini-van" t || kwIn "XtraCab" t ||
    kwIn "CrewMax" t || kwIn "Double Cab" t

/-- Line 196: the drivetrain keyword set. -/
def driveKw (t : String) : Bool :=
  kwIn "Wheel Drive" t || kwIn "All Wheel" t || kwIn "Four Wheel" t ||
    kwIn "Front Wheel" t || kwIn "Rear Wheel" t

/-- Line 199: `'/' in text and 'EPA' in text.upper()`. -/
def mpgKw (t : String) : Bool :=
  kwIn "/" t && kwIn "EPA" t.toUpper

/-- Line 202: engine keywords, excluding fragments that mention
`Transmission`. -/
def engineKw (t : String) : Bool :=
  (kwIn "Engine" t || kwIn "Motor" t || kwIn "Hybrid" t || kwIn "Turbo" t ||
      kwIn "Cyl" t) && !kwIn "Transmission" t

/-- Python `str.isdigit()`: non-empty and all characters digits. -/
def isDigits (t : String) : Bool :=
  !t.isEmpty && t.toList.all Char.isDigit

/-- One iteration of the classification loop of `parse_car_details`
(lines 179-210).  The branches mirror the `if ... continue` cascade of the
source; only the Body Type branch checks that its slot is still `'NA'`
before writing, and a fragment with a body keyword but an occupied Body
Type slot falls through to the later branches. -/
def parseStep (d : CarDict) (s : Slot) : CarDict :=
  let text := slotText s
  if slotSpan s then { d with interiorColor := text }
  else if bodyKw text && (d.bodyType == "NA") then { d with bodyType := text }
  else if driveKw text then { d with driveType := text }
  else if mpgKw text then { d with mpg := text }
  else if engineKw text then { d with engine := text }
  else if kwIn "Transmission" text then { d with transmission := text }
  else if isDigits text then { d with modelCode := text }
  else d

/-- Toyota_Official.py `parse_car_details` (lines 159-211). -/
def parse_car_details (car : List Slot) : CarDict :=
  car.foldl parseStep initCarDict

end Toyota

namespace RecGen

/-- One row of `Honda.csv` / `Toyota.csv` as read by Rec_Generator.py: both
files carry the same eight columns (Model, Brand, Year, Transmission,
Price, Body Type, MPG, Engine), written as text by the scrapers. -/
structure RawRow where
  model : String
  brand : String
  year : String
  transmission : String
  price : String
  bodyType : String
  mpg : String
  engine : String
deriving DecidableEq

/-- Rec_Generator.py line 6:
`combined_df = pd.concat([Honda, Toyota], ignore_index=True)`.  With equal
column sets, `concat` stacks the Honda rows, then the Toyota rows, in their
original order; `ignore_index` only renumbers the index. -/
def combined_df (honda toyota : List RawRow) : List RawRow :=
  honda ++ toyota

/-- Rec_Generator.py lines 26-38: the static body-type → seat-count table. -/
def bodytype_to_seats : List (String × Nat) :=
  [("Sedan", 5), ("Sport Utility", 5), ("Passenger Van", 12), ("Crew Cab", 5),
    ("Hatchback", 5), ("4dr Car", 5), ("Double Cab", 5), ("XtraCab", 4),
    ("CrewMax", 5), ("Mini-van, Passenger", 7), ("2dr Car", 4)]

/-- The Seats value derived for one body-type string:
`Series.map(dict)` looks the exact string up in the dictionary and yields
NaN (`none`) when it is not a key. -/
def seatsOf (bt : String) : Option Nat :=
  List.lookup bt bodytype_to_seats

/-- Rec_Generator.py line 41:
`combined_df["Size"] = combined_df["Body Type"].map(bodytype_to_seats)`. -/
def sizeColumn (rows : List RawRow) : List (Option Nat) :=
  rows.map (fun r => seatsOf r.bodyType)

end RecGen

namespace Honda

/-- Honda_Official.py lines 176-193, the price-extraction loop of
`scrape_car_data`.  The regular-expression layer is abstracted away: the
argument lists, for each pattern of `price_patterns` in source order, the
value parsed from the first match of that pattern on the page text (`none`
when the pattern has no match).  The parse `float(group.replace(',', ''))`
cannot fail on a match of these patterns, since every capture is made of
digits and commas.  The loop takes the first pattern whose parsed value
passes `10000 <= price <= 200000`; an out-of-range value does not stop the
remaining patterns from being tried, and no passing value leaves the
`Price` key absent. -/
def extract_price : List (Option ℚ) → Option ℚ
  | [] => none
  | none :: rest => extract_price rest
  | some p :: rest =>
    if 10000 ≤ p ∧ p ≤ 200000 then some p else extract_price rest

end Honda

/-! ## Helper lemmas -/

theorem lookup_eq_none_of_not_mem_keys {β : Type} (l : List (String × β))
    (k : String) (h : k ∉ l.map Prod.fst) : List.lookup k l = none := by
  induction l with
  | nil => rfl
  | cons p rest ih =>
    simp only [List.map_cons, List.mem_cons] at h
    push_neg at h
    have hb : (k == p.1) = false := by simp [h.1]
    simp only [List.lookup, hb]
    exact ih h.2

theorem getElem?_zipWith_some {α β γ : Type} (f : α → β → γ) (l1 : List α)
    (l2 : List β) (i : ℕ) (a : α) (b : β) (h1 : l1[i]? = some a)
    (h2 : l2[i]? = some b) : (List.zipWith f l1 l2)[i]? = some (f a b) := by
  induction l1 generalizing l2 i with
  | nil => simp at h1
  | cons x xs ih =>
    cases l2 with
    | nil => simp at h2
    | cons y ys =>
      cases i with
      | zero =>
        simp only [List.getElem?_cons_zero, Option.some.injEq] at h1 h2
        subst h1
        subst h2
        simp [List.zipWith_cons_cons]
      | succ n =>
        simp only [List.getElem?_cons_succ] at h1 h2
        simp only [List.zipWith_cons_cons, List.getElem?_cons_succ]
        exact ih ys n h1 h2

theorem oadd_none_left (x : Option ℚ) : WheelFinder.oadd none x = none := by
  cases x <;> rfl

theorem axisScores_eq_of_nonpos (diffs : List (Option ℚ)) (w : ℤ) (b : Bool)
    (scores : List (Option ℚ)) (hw : ¬0 < w) :
    WheelFinder.axisScores diffs w b scores = scores := by
  unfold WheelFinder.axisScores
  rw [if_neg hw]

theorem axisScores_eq_of_pos_max (diffs : List (Option ℚ)) (w : ℤ) (b : Bool)
    (scores : List (Option ℚ)) (m : ℚ) (hw : 0 < w)
    (hm : WheelFinder.nanMax diffs = some m) (hm0 : 0 < m) :
    WheelFinder.axisScores diffs w b scores =
      List.zipWith (fun s d =>
        WheelFinder.oadd s
          (WheelFinder.omul
            (WheelFinder.osub (some 1) (WheelFinder.odiv d (some m)))
            (some (w : ℚ)))) scores diffs := by
  unfold WheelFinder.axisScores
  rw [hm, if_pos hw]
  simp [hm0]

theorem axisScores_eq_of_pos_flat (diffs : List (Option ℚ)) (w : ℤ) (b : Bool)
    (scores : List (Option ℚ)) (hw : 0 < w)
    (hm : WheelFinder.nanMax diffs = none ∨
      ∃ m, WheelFinder.nanMax diffs = some m ∧ ¬0 < m) :
    WheelFinder.axisScores diffs w b scores =
      if b then scores.map (fun s => WheelFinder.oadd s (some (w : ℚ)))
      else scores := by
  unfold WheelFinder.axisScores
  rw [if_pos hw]
  rcases hm with hm | ⟨m, hm, hm0⟩
  · rw [hm]
  · rw [hm]
    simp [hm0]

theorem length_axisScores (diffs : List (Option ℚ)) (w : ℤ) (b : Bool)
    (scores : List (Option ℚ)) (h : diffs.length = scores.length) :
    (WheelFinder.axisScores diffs w b scores).length = scores.length := by
  by_cases hw : 0 < w
  · cases hm : WheelFinder.nanMax diffs with
    | none =>
      rw [axisScores_eq_of_pos_flat diffs w b scores hw (Or.inl hm)]
      cases b <;> simp
    | some m =>
      by_cases hm0 : 0 < m
      · rw [axisScores_eq_of_pos_max diffs w b scores m hw hm hm0]
        simp [h]
      · rw [axisScores_eq_of_pos_flat diffs w b scores hw (Or.inr ⟨m, hm, hm0⟩)]
        cases b <;> simp
  · rw [axisScores_eq_of_nonpos diffs w b scores hw]

theorem oadd_none_right (x : Option ℚ) : WheelFinder.oadd x none = none := by
  cases x <;> rfl

theorem length_priceStage (rows : List WheelFinder.Row) (pp : ℚ) (pw : ℤ) :
    (WheelFinder.priceStage rows pp pw).length = rows.length := by
  have := length_axisScores (WheelFinder.priceDiffs rows pp) pw false
    (WheelFinder.initScores rows)
    (by simp [WheelFinder.priceDiffs, WheelFinder.initScores])
  simpa [WheelFinder.priceStage, WheelFinder.initScores] using this

theorem length_mpgStage (rows : List WheelFinder.Row) (pp : ℚ) (pw : ℤ)
    (mp : ℚ) (mw : ℤ) :
    (WheelFinder.mpgStage rows pp pw mp mw).length = rows.length := by
  have := length_axisScores (WheelFinder.mpgDiffs rows mp) mw false
    (WheelFinder.priceStage rows pp pw)
    (by simp [WheelFinder.mpgDiffs, length_priceStage])
  simpa [WheelFinder.mpgStage, length_priceStage] using this

theorem length_scoreRows (rows : List WheelFinder.Row) (pp : ℚ) (pw : ℤ)
    (mp : ℚ) (mw : ℤ) (sp : ℚ) (sw : ℤ) :
    (WheelFinder.scoreRows rows pp pw mp mw sp sw).length = rows.length := by
  have := length_axisScores (WheelFinder.sizeDiffs rows sp) sw true
    (WheelFinder.mpgStage rows pp pw mp mw)
    (by simp [WheelFinder.sizeDiffs, length_mpgStage])
  simpa [WheelFinder.scoreRows, length_mpgStage] using this

theorem axisScores_none (diffs : List (Option ℚ)) (w : ℤ) (b : Bool)
    (scores : List (Option ℚ)) (i : ℕ) (hd : i < diffs.length)
    (h : scores[i]? = some none) :
    (WheelFinder.axisScores diffs w b scores)[i]? = some none := by
  obtain ⟨d, hd2⟩ : ∃ d, diffs[i]? = some d :=
    ⟨diffs[i], List.getElem?_eq_getElem hd⟩
  by_cases hw : 0 < w
  · cases hm : WheelFinder.nanMax diffs with
    | none =>
      rw [axisScores_eq_of_pos_flat diffs w b scores hw (Or.inl hm)]
      cases b
      · simpa using h
      · simp only [if_pos]
        rw [List.getElem?_map, h]
        rfl
    | some m =>
      by_cases hm0 : 0 < m
      · rw [axisScores_eq_of_pos_max diffs w b scores m hw hm hm0]
        rw [getElem?_zipWith_some _ scores diffs i none d h hd2, oadd_none_left]
      · rw [axisScores_eq_of_pos_flat diffs w b scores hw (Or.inr ⟨m, hm, hm0⟩)]
        cases b
        · simpa using h
        · simp only [if_pos]
          rw [List.getElem?_map, h]
          rfl
  · rw [axisScores_eq_of_nonpos diffs w b scores hw]
    exact h

theorem filterMap_enumFrom_length (n : ℕ)
    (l : List (WheelFinder.Row × Option ℚ))
    (h : ∀ p ∈ l, p.2.isSome = true) :
    ((List.enumFrom n l).filterMap (fun p =>
      match p.2.2 with
      | some q => some (p.1, p.2.1, q)
      | none => none)).length = l.length := by
  induction l generalizing n with
  | nil => rfl
  | cons x xs ih =>
    obtain ⟨q, hq⟩ := Option.isSome_iff_exists.mp (h x (List.mem_cons_self x xs))
    have hxs : ∀ p ∈ xs, p.2.isSome = true :=
      fun p hp => h p (List.mem_cons_of_mem _ hp)
    simp only [List.enumFrom_cons, List.filterMap_cons, hq]
    simp [ih (n + 1) hxs]

theorem tagScore_length (scored : List (WheelFinder.Row × Option ℚ))
    (h : ∀ p ∈ scored, p.2.isSome = true) :
    (WheelFinder.tagScore scored).length = scored.length :=
  filterMap_enumFrom_length 0 scored h

theorem nanPart_eq_nil (scored : List (WheelFinder.Row × Option ℚ))
    (h : ∀ p ∈ scored, p.2.isSome = true) :
    WheelFinder.nanPart scored = [] := by
  unfold WheelFinder.nanPart
  rw [List.filterMap_eq_nil_iff]
  intro p hp
  have hs := h p hp
  cases hp2 : p.2 with
  | none =>
    rw [hp2] at hs
    exact absurd hs (by simp)
  | some q => rfl

/-! ## Claims -/

/-- Claim C1 (counterexample): the claim that in `generate_recs` the
`Avg MPG` value is absent whenever either `CTY MPG` or `HWAY MPG` is absent
is false: `DataFrame.mean(axis=1)` skips missing values, so a row with
exactly one of the two present gets that present value. -/
theorem c1_counterexample :
    ¬ (∀ r : WheelFinder.Row, r.cty = none ∨ r.hway = none →
        WheelFinder.avgMPG r = none) := by
  intro h
  have := h ⟨"Corolla", "Toyota", 2024, some 25000, some 30, none, some 5⟩
    (Or.inr rfl)
  simp [WheelFinder.avgMPG] at this

/-- Claim C1 (amended): the `Avg MPG` column of `generate_recs` is the mean
of the MPG values that are present: the mean of both when both are present,
the present one when exactly one is present, and absent only when both are
absent. -/
theorem c1_avg_mpg (r : WheelFinder.Row) :
    (∀ c h, r.cty = some c → r.hway = some h →
      WheelFinder.avgMPG r = some ((c + h) / 2)) ∧
    (∀ c, r.cty = some c → r.hway = none → WheelFinder.avgMPG r = some c) ∧
    (∀ h, r.cty = none → r.hway = some h → WheelFinder.avgMPG r = some h) ∧
    (r.cty = none → r.hway = none → WheelFinder.avgMPG r = none) := by
  refine ⟨?_, ?_, ?_, ?_⟩ <;> intros <;> simp_all [WheelFinder.avgMPG]

/-- Witness for C1 at a concrete row with both MPG values present. -/
theorem c1_avg_mpg_witness :
    WheelFinder.avgMPG
      ⟨"CR-V", "Honda", 2024, some 30000, some 20, some 30, some 5⟩ =
        some 25 := by
  have := (c1_avg_mpg
    ⟨"CR-V", "Honda", 2024, some 30000, some 20, some 30, some 5⟩).1
    20 30 rfl rfl
  norm_num at this
  exact this

/-- Claim C3 (counterexample): the claim that in `parse_car_details` a field
slot populated by an earlier fragment is never overwritten by a later
fragment of the group is false for Drive Type: in the 7-slot group below
the first fragment populates Drive Type with "All Wheel Drive", and the
second fragment overwrites it with "Front Wheel Drive". -/
theorem c3_counterexample :
    ¬ (∀ car : List Toyota.Slot, car.length = 7 → ∀ n,
        (Toyota.parse_car_details (car.take n)).driveType ≠ "NA" →
          (Toyota.parse_car_details car).driveType =
            (Toyota.parse_car_details (car.take n)).driveType) := by
  intro h
  have := h
    [Toyota.Slot.tag ⟨"All Wheel Drive", false⟩,
      Toyota.Slot.tag ⟨"Front Wheel Drive", false⟩, Toyota.Slot.na,
      Toyota.Slot.na, Toyota.Slot.na, Toyota.Slot.na, Toyota.Slot.na]
    (by decide) 1 (by decide)
  revert this
  decide

/-- Claim C3 (amended): in the classification cascade of
`parse_car_details`, only the Body Type slot is first-wins: once it is
populated it is never changed again.  Every other field (Interior Color,
Drive Type, MPG, Engine, Transmission, Model Code) is overwritten by every
later fragment that classifies into it, under the cascade's guards. -/
theorem c3_parse_step (d : Toyota.CarDict) (s : Toyota.Slot) :
    (d.bodyType ≠ "NA" → (Toyota.parseStep d s).bodyType = d.bodyType) ∧
    (Toyota.slotSpan s = false → Toyota.bodyKw (Toyota.slotText s) = true →
      d.bodyType = "NA" → (Toyota.parseStep d s).bodyType = Toyota.slotText s) ∧
    (Toyota.slotSpan s = true →
      (Toyota.parseStep d s).interiorColor = Toyota.slotText s) ∧
    (Toyota.slotSpan s = false →
      (Toyota.bodyKw (Toyota.slotText s) = false ∨ d.bodyType ≠ "NA") →
      Toyota.driveKw (Toyota.slotText s) = true →
      (Toyota.parseStep d s).driveType = Toyota.slotText s) ∧
    (Toyota.slotSpan s = false →
      (Toyota.bodyKw (Toyota.slotText s) = false ∨ d.bodyType ≠ "NA") →
      Toyota.driveKw (Toyota.slotText s) = false →
      Toyota.mpgKw (Toyota.slotText s) = true →
      (Toyota.parseStep d s).mpg = Toyota.slotText s) ∧
    (Toyota.slotSpan s = false →
      (Toyota.bodyKw (Toyota.slotText s) = false ∨ d.bodyType ≠ "NA") →
      Toyota.driveKw (Toyota.slotText s) = false →
      Toyota.mpgKw (Toyota.slotText s) = false →
      Toyota.engineKw (Toyota.slotText s) = true →
      (Toyota.parseStep d s).engine = Toyota.slotText s) ∧
    (Toyota.slotSpan s = false →
      (Toyota.bodyKw (Toyota.slotText s) = false ∨ d.bodyType ≠ "NA") →
      Toyota.driveKw (Toyota.slotText s) = false →
      Toyota.mpgKw (Toyota.slotText s) = false →
      Toyota.engineKw (Toyota.slotText s) = false →
      Toyota.kwIn "Transmission" (Toyota.slotText s) = true →
      (Toyota.parseStep d s).transmission = Toyota.slotText s) ∧
    (Toyota.slotSpan s = false →
      (Toyota.bodyKw (Toyota.slotText s) = false ∨ d.bodyType ≠ "NA") →
      Toyota.driveKw (Toyota.slotText s) = false →
      Toyota.mpgKw (Toyota.slotText s) = false →
      Toyota.engineKw (Toyota.slotText s) = false →
      Toyota.kwIn "Transmission" (Toyota.slotText s) = false →
      Toyota.isDigits (Toyota.slotText s) = true →
      (Toyota.parseStep d s).modelCode = Toyota.slotText s) := by
  refine ⟨?_, ?_, ?_, ?_, ?_, ?_, ?_, ?_⟩ <;>
    · intros
      simp only [Toyota.parseStep]
      split_ifs <;> simp_all

/-- Witness for C3 at a concrete dictionary and fragment: an
already-populated Drive Type slot is overwritten. -/
theorem c3_parse_step_witness :
    (Toyota.parseStep
      ⟨"NA", "NA", "All Wheel Drive", "NA", "NA", "NA", "NA"⟩
      (Toyota.Slot.tag ⟨"Front Wheel Drive", false⟩)).driveType =
        "Front Wheel Drive" := by
  exact (c3_parse_step
    ⟨"NA", "NA", "All Wheel Drive", "NA", "NA", "NA", "NA"⟩
    (Toyota.Slot.tag ⟨"Front Wheel Drive", false⟩)).2.2.2.1
    (by decide) (Or.inl (by decide)) (by decide)

/-- Claim C4: every group produced by the accumulation phase of `fill_cars`
is normalized to exactly 7 slots: a group with at most 7 tags is its tags
followed by exactly `7 - length` padding markers, a group with more than 7
tags is cut to its first 7, and every group `fill_cars` returns has
length 7. -/
theorem c4_normalization (l : List Toyota.Frag) :
    (∀ g ∈ Toyota.group_cars l,
      (g.length ≤ 7 →
        Toyota.normalize_car g =
          g.map Toyota.Slot.tag ++
            List.replicate (7 - g.length) Toyota.Slot.na) ∧
      (7 < g.length →
        Toyota.normalize_car g = (g.take 7).map Toyota.Slot.tag)) ∧
    (∀ c ∈ Toyota.fill_cars l, c.length = 7) := by
  constructor
  · intro g _
    constructor
    · intro hg
      unfold Toyota.normalize_car
      split_ifs with h1 h2
      · rfl
      · omega
      · have h7 : 7 - g.length = 0 := by omega
        rw [h7]
        simp
    · intro hg
      unfold Toyota.normalize_car
      split_ifs with h1
      · omega
      · rfl
  · intro c hc
    simp only [Toyota.fill_cars, List.mem_map] at hc
    obtain ⟨g, _, rfl⟩ := hc
    unfold Toyota.normalize_car
    split_ifs with h1 h2
    · simp only [List.length_append, List.length_map, List.length_replicate]
      omega
    · simp only [List.length_map, List.length_take]
      omega
    · simp only [List.length_map]
      omega

/-- Witness for C4 at a concrete stream of three tags forming one group. -/
theorem c4_witness :
    Toyota.normalize_car
        [⟨"Black", true⟩, ⟨"All Wheel Drive", false⟩, ⟨"12345", false⟩] =
      [Toyota.Slot.tag ⟨"Black", true⟩,
        Toyota.Slot.tag ⟨"All Wheel Drive", false⟩,
        Toyota.Slot.tag ⟨"12345", false⟩, Toyota.Slot.na, Toyota.Slot.na,
        Toyota.Slot.na, Toyota.Slot.na] ∧
    ∀ c ∈ Toyota.fill_cars
        [⟨"Black", true⟩, ⟨"All Wheel Drive", false⟩, ⟨"12345", false⟩],
      c.length = 7 := by
  constructor
  · exact ((c4_normalization
      [⟨"Black", true⟩, ⟨"All Wheel Drive", false⟩, ⟨"12345", false⟩]).1
      [⟨"Black", true⟩, ⟨"All Wheel Drive", false⟩, ⟨"12345", false⟩]
      (by decide)).1 (by decide)
  · exact (c4_normalization
      [⟨"Black", true⟩, ⟨"All Wheel Drive", false⟩, ⟨"12345", false⟩]).2

/-- Claim C5 (counterexample): the claim that `generate_recs` with a
non-empty brand allow-list matching zero rows returns an empty result
carrying the usual seven output columns is false: the source returns
`pd.DataFrame()`, which has no columns at all. -/
theorem c5_counterexample :
    (WheelFinder.generate_recs
        [⟨"Civic", "Honda", 2024, some 25000, some 30, some 38, some 5⟩]
        ["Toyota"] 20000 5 30 5 5 5).rows = [] ∧
    (WheelFinder.generate_recs
        [⟨"Civic", "Honda", 2024, some 25000, some 30, some 38, some 5⟩]
        ["Toyota"] 20000 5 30 5 5 5).columns ≠ WheelFinder.outputColumns := by
  decide

/-- Claim C5 (amended): for every inventory and every non-empty brand
allow-list that matches zero rows, `generate_recs` returns the completely
empty table (no rows and no columns, i.e. `pd.DataFrame()`), without
raising and without performing any scoring. -/
theorem c5_empty_filter (df : List WheelFinder.Row) (bp : List String)
    (pp mp sp : ℚ) (pw mw sw : ℤ) (h1 : bp ≠ [])
    (h2 : df.filter (fun r => bp.contains r.brand) = []) :
    WheelFinder.generate_recs df bp pp pw mp mw sp sw = ⟨[], []⟩ := by
  have hb : WheelFinder.brandFilter df bp = [] := by
    unfold WheelFinder.brandFilter
    rw [if_neg, h2]
    simp [h1]
  unfold WheelFinder.generate_recs
  rw [hb]
  rfl

/-- Witness for C5 at a concrete one-row inventory and an exclusionary
allow-list. -/
theorem c5_empty_filter_witness :
    WheelFinder.generate_recs
        [⟨"Camry", "Toyota", 2024, some 29000, some 28, some 39, some 5⟩]
        ["Honda"] 20000 5 30 5 5 5 = ⟨[], []⟩ := by
  exact c5_empty_filter
    [⟨"Camry", "Toyota", 2024, some 29000, some 28, some 39, some 5⟩]
    ["Honda"] 20000 30 5 5 5 5 (by decide) (by decide)

/-- Claim C6: concatenating the Honda table (m rows) and the Toyota table
(n rows) yields exactly m+n rows, the Honda rows first and the Toyota rows
second, each in its original order, with no row dropped, re-sorted or
deduplicated. -/
theorem c6_concat (honda toyota : List RecGen.RawRow) :
    (RecGen.combined_df honda toyota).length = honda.length + toyota.length ∧
    (∀ i, i < honda.length →
      (RecGen.combined_df honda toyota)[i]? = honda[i]?) ∧
    (∀ j, j < toyota.length →
      (RecGen.combined_df honda toyota)[honda.length + j]? = toyota[j]?) := by
  refine ⟨List.length_append _ _, ?_, ?_⟩
  · intro i hi
    show (honda ++ toyota)[i]? = honda[i]?
    rw [List.getElem?_append, if_pos hi]
  · intro j _
    show (honda ++ toyota)[honda.length + j]? = toyota[j]?
    rw [List.getElem?_append, if_neg (by omega)]
    congr 1
    omega

/-- Witness for C6 on concrete two-row and one-row tables. -/
theorem c6_witness :
    (RecGen.combined_df
        [⟨"Civic", "Honda", "2024", "N/A", "25000", "Sedan", "30 / 38", "Gasoline"⟩,
          ⟨"CR-V", "Honda", "2024", "N/A", "30000", "Sport Utility", "28 / 34", "Gasoline"⟩]
        [⟨"Camry", "Toyota", "2024", "Automatic", "29000", "4dr Car", "28 / 39", "Gas"⟩]).length = 3 ∧
    (RecGen.combined_df
        [⟨"Civic", "Honda", "2024", "N/A", "25000", "Sedan", "30 / 38", "Gasoline"⟩,
          ⟨"CR-V", "Honda", "2024", "N/A", "30000", "Sport Utility", "28 / 34", "Gasoline"⟩]
        [⟨"Camry", "Toyota", "2024", "Automatic", "29000", "4dr Car", "28 / 39", "Gas"⟩])[2]? =
      some ⟨"Camry", "Toyota", "2024", "Automatic", "29000", "4dr Car", "28 / 39", "Gas"⟩ := by
  refine ⟨(c6_concat _ _).1, ?_⟩
  exact (c6_concat
    [⟨"Civic", "Honda", "2024", "N/A", "25000", "Sedan", "30 / 38", "Gasoline"⟩,
      ⟨"CR-V", "Honda", "2024", "N/A", "30000", "Sport Utility", "28 / 34", "Gasoline"⟩]
    [⟨"Camry", "Toyota", "2024", "Automatic", "29000", "4dr Car", "28 / 39", "Gas"⟩]).2.2
    0 (by decide)

/-- Claim C7: in the Seats derivation of Rec_Generator.py, the body type
"Sedan" maps to 5 seats, any body type that is not a key of the static
table maps to an absent Seats value, and the Size column is exactly this
lookup applied row-wise. -/
theorem c7_seats :
    RecGen.seatsOf "Sedan" = some 5 ∧
    (∀ bt : String, bt ∉ RecGen.bodytype_to_seats.map Prod.fst →
      RecGen.seatsOf bt = none) ∧
    (∀ (rows : List RecGen.RawRow) (i : ℕ) (r : RecGen.RawRow), rows[i]? = some r →
      (RecGen.sizeColumn rows)[i]? = some (RecGen.seatsOf r.bodyType)) := by
  refine ⟨rfl, ?_, ?_⟩
  · intro bt h
    exact lookup_eq_none_of_not_mem_keys _ bt h
  · intro rows i r h
    show (rows.map (fun r => RecGen.seatsOf r.bodyType))[i]? = _
    rw [List.getElem?_map, h]
    rfl

/-- Witness for C7: "Sedan" maps to 5, the unrecognized body type
"Spaceship" maps to an absent value, and the Size column reflects this. -/
theorem c7_witness :
    RecGen.seatsOf "Sedan" = some 5 ∧
    RecGen.seatsOf "Spaceship" = none ∧
    (RecGen.sizeColumn
        [⟨"Civic", "Honda", "2024", "N/A", "25000", "Spaceship", "30 / 38", "Gas"⟩])[0]? =
      some none := by
  refine ⟨c7_seats.1, c7_seats.2.1 "Spaceship" (by decide), ?_⟩
  have := c7_seats.2.2
    [⟨"Civic", "Honda", "2024", "N/A", "25000", "Spaceship", "30 / 38", "Gas"⟩]
    0 ⟨"Civic", "Honda", "2024", "N/A", "25000", "Spaceship", "30 / 38", "Gas"⟩ rfl
  rw [this]
  exact congrArg some (c7_seats.2.1 "Spaceship" (by decide))

/-- Claim C8: in the price extraction of `scrape_car_data`, if the value
parsed from every matching pattern lies outside [10000, 200000] the Price
stays absent; an out-of-range match from an earlier pattern does not stop
later patterns, and the first pattern in priority order whose value is in
range sets the Price. -/
theorem c8_price (ms : List (Option ℚ)) :
    ((∀ v ∈ ms, ∀ p : ℚ, v = some p → p < 10000 ∨ 200000 < p) →
      Honda.extract_price ms = none) ∧
    (∀ (pre : List (Option ℚ)) (v : ℚ) (post : List (Option ℚ)),
      ms = pre ++ some v :: post →
      (∀ w ∈ pre, ∀ p : ℚ, w = some p → p < 10000 ∨ 200000 < p) →
      10000 ≤ v → v ≤ 200000 → Honda.extract_price ms = some v) := by
  constructor
  · intro h
    induction ms with
    | nil => rfl
    | cons x rest ih =>
      match x with
      | none =>
        exact ih (fun w hw => h w (List.mem_cons_of_mem _ hw))
      | some p =>
        have hp := h (some p) (List.mem_cons_self _ _) p rfl
        unfold Honda.extract_price
        rw [if_neg (by rcases hp with hp | hp <;> intro hc <;> [linarith [hc.1]; linarith [hc.2]])]
        exact ih (fun w hw => h w (List.mem_cons_of_mem _ hw))
  · intro pre v post hms hpre hlo hhi
    subst hms
    induction pre with
    | nil =>
      show Honda.extract_price (some v :: post) = some v
      unfold Honda.extract_price
      rw [if_pos (show 10000 ≤ v ∧ v ≤ 200000 from ⟨hlo, hhi⟩)]
    | cons w rest ih =>
      have hrest : ∀ x ∈ rest, ∀ p : ℚ, x = some p → p < 10000 ∨ 200000 < p :=
        fun x hx => hpre x (List.mem_cons_of_mem _ hx)
      match w with
      | none => exact ih hrest
      | some p =>
        have hp := hpre (some p) (List.mem_cons_self _ _) p rfl
        show Honda.extract_price (some p :: (rest ++ some v :: post)) = some v
        unfold Honda.extract_price
        rw [if_neg (by rcases hp with hp | hp <;> intro hc <;> [linarith [hc.1]; linarith [hc.2]])]
        exact ih hrest

/-- Claim C2: in the scoring blocks of `generate_recs`, for a criterion with
positive weight whose diffs have maximum 0: the size block adds the full
size weight to every row's total, while the price and MPG blocks add
nothing; and when the maximum diff is positive, each block adds
`(1 - diff/maxDiff) * weight` row-wise to the running Score column. -/
theorem c2_axis_scoring (rows : List WheelFinder.Row) (pp mp sp : ℚ)
    (pw mw sw : ℤ) :
    (0 < pw → WheelFinder.nanMax (WheelFinder.priceDiffs rows pp) = some 0 →
      WheelFinder.priceStage rows pp pw = WheelFinder.initScores rows) ∧
    (0 < mw → WheelFinder.nanMax (WheelFinder.mpgDiffs rows mp) = some 0 →
      WheelFinder.mpgStage rows pp pw mp mw = WheelFinder.priceStage rows pp pw) ∧
    (0 < sw → WheelFinder.nanMax (WheelFinder.sizeDiffs rows sp) = some 0 →
      WheelFinder.scoreRows rows pp pw mp mw sp sw =
        (WheelFinder.mpgStage rows pp pw mp mw).map
          (fun s => WheelFinder.oadd s (some (sw : ℚ)))) ∧
    (∀ m : ℚ, 0 < pw →
      WheelFinder.nanMax (WheelFinder.priceDiffs rows pp) = some m → 0 < m →
      WheelFinder.priceStage rows pp pw =
        List.zipWith
          (fun s d => WheelFinder.oadd s
            (WheelFinder.omul
              (WheelFinder.osub (some 1) (WheelFinder.odiv d (some m)))
              (some (pw : ℚ))))
          (WheelFinder.initScores rows) (WheelFinder.priceDiffs rows pp)) ∧
    (∀ m : ℚ, 0 < mw →
      WheelFinder.nanMax (WheelFinder.mpgDiffs rows mp) = some m → 0 < m →
      WheelFinder.mpgStage rows pp pw mp mw =
        List.zipWith
          (fun s d => WheelFinder.oadd s
            (WheelFinder.omul
              (WheelFinder.osub (some 1) (WheelFinder.odiv d (some m)))
              (some (mw : ℚ))))
          (WheelFinder.priceStage rows pp pw) (WheelFinder.mpgDiffs rows mp)) ∧
    (∀ m : ℚ, 0 < sw →
      WheelFinder.nanMax (WheelFinder.sizeDiffs rows sp) = some m → 0 < m →
      WheelFinder.scoreRows rows pp pw mp mw sp sw =
        List.zipWith
          (fun s d => WheelFinder.oadd s
            (WheelFinder.omul
              (WheelFinder.osub (some 1) (WheelFinder.odiv d (some m)))
              (some (sw : ℚ))))
          (WheelFinder.mpgStage rows pp pw mp mw)
          (WheelFinder.sizeDiffs rows sp)) := by
  refine ⟨?_, ?_, ?_, ?_, ?_, ?_⟩
  · intro h1 h2
    unfold WheelFinder.priceStage WheelFinder.axisScores
    rw [h2, if_pos h1]
    simp
  · intro h1 h2
    unfold WheelFinder.mpgStage WheelFinder.axisScores
    rw [h2, if_pos h1]
    simp
  · intro h1 h2
    unfold WheelFinder.scoreRows WheelFinder.axisScores
    rw [h2, if_pos h1]
    simp
  · intro m h1 h2 hm
    unfold WheelFinder.priceStage WheelFinder.axisScores
    rw [h2, if_pos h1]
    simp [hm]
  · intro m h1 h2 hm
    unfold WheelFinder.mpgStage WheelFinder.axisScores
    rw [h2, if_pos h1]
    simp [hm]
  · intro m h1 h2 hm
    unfold WheelFinder.scoreRows WheelFinder.axisScores
    rw [h2, if_pos h1]
    simp [hm]

/-- Witness for C2 at a concrete two-row frame: the price diffs are all 0
(no contribution), the size diffs are all 0 (full size weight added to
every row), and the MPG diffs have positive maximum (row-wise normalized
contribution). -/
theorem c2_axis_scoring_witness :
    WheelFinder.priceStage
        [⟨"A", "Honda", 2024, some 20000, some 20, some 30, some 5⟩,
          ⟨"B", "Toyota", 2024, some 20000, some 10, some 10, some 5⟩]
        20000 5 =
      WheelFinder.initScores
        [⟨"A", "Honda", 2024, some 20000, some 20, some 30, some 5⟩,
          ⟨"B", "Toyota", 2024, some 20000, some 10, some 10, some 5⟩] ∧
    WheelFinder.scoreRows
        [⟨"A", "Honda", 2024, some 20000, some 20, some 30, some 5⟩,
          ⟨"B", "Toyota", 2024, some 20000, some 10, some 10, some 5⟩]
        20000 5 20 4 5 3 =
      (WheelFinder.mpgStage
          [⟨"A", "Honda", 2024, some 20000, some 20, some 30, some 5⟩,
            ⟨"B", "Toyota", 2024, some 20000, some 10, some 10, some 5⟩]
          20000 5 20 4).map
        (fun s => WheelFinder.oadd s (some (3 : ℚ))) ∧
    WheelFinder.mpgStage
        [⟨"A", "Honda", 2024, some 20000, some 20, some 30, some 5⟩,
          ⟨"B", "Toyota", 2024, some 20000, some 10, some 10, some 5⟩]
        20000 5 20 4 =
      List.zipWith
        (fun s d => WheelFinder.oadd s
          (WheelFinder.omul
            (WheelFinder.osub (some 1) (WheelFinder.odiv d (some (10 : ℚ))))
            (some ((4 : ℤ) : ℚ))))
        (WheelFinder.priceStage
          [⟨"A", "Honda", 2024, some 20000, some 20, some 30, some 5⟩,
            ⟨"B", "Toyota", 2024, some 20000, some 10, some 10, some 5⟩]
          20000 5)
        (WheelFinder.mpgDiffs
          [⟨"A", "Honda", 2024, some 20000, some 20, some 30, some 5⟩,
            ⟨"B", "Toyota", 2024, some 20000, some 10, some 10, some 5⟩]
          20) := by
  refine ⟨?_, ?_, ?_⟩
  · exact (c2_axis_scoring _ 20000 20 5 5 4 3).1 (by norm_num)
      (by simp [WheelFinder.nanMax, WheelFinder.priceDiffs, WheelFinder.osub,
        WheelFinder.oabs])
  · exact (c2_axis_scoring _ 20000 20 5 5 4 3).2.2.1 (by norm_num)
      (by simp [WheelFinder.nanMax, WheelFinder.sizeDiffs, WheelFinder.osub,
        WheelFinder.oabs])
  · exact (c2_axis_scoring _ 20000 20 5 5 4 3).2.2.2.2.1 10 (by norm_num)
      (by
        simp [WheelFinder.nanMax, WheelFinder.mpgDiffs, WheelFinder.osub,
          WheelFinder.oabs, WheelFinder.avgMPG]
        norm_num)
      (by norm_num)

/-- Claim C9: when every filtered row has a numeric total score,
`generate_recs` returns the first 5 entries (or all, if fewer) of an
arrangement of the scored rows that is sorted by the strict ranking order
(score descending, ties by original position ascending), projected back to
rows.  Since that order is linear on position-tagged rows, the sorted
arrangement is unique: the result is the top-5 by score with stable
tie-breaking, in descending order. -/
theorem c9_top5 (df : List WheelFinder.Row) (bp : List String) (pp mp sp : ℚ)
    (pw mw sw : ℤ)
    (h : ∀ s ∈ WheelFinder.scoreRows (WheelFinder.brandFilter df bp) pp pw mp
      mw sp sw, s.isSome = true) :
    ∃ l : List (ℕ × WheelFinder.Row × ℚ),
      l.Perm (WheelFinder.tagScore
        (WheelFinder.scoredRows df bp pp pw mp mw sp sw)) ∧
      l.Pairwise WheelFinder.scoreOrd ∧
      (WheelFinder.generate_recs df bp pp pw mp mw sp sw).rows =
        (l.take 5).map (fun p => p.2.1) ∧
      (WheelFinder.generate_recs df bp pp pw mp mw sp sw).rows.length =
        min 5 (WheelFinder.brandFilter df bp).length := by
  have hmem : ∀ p ∈ WheelFinder.scoredRows df bp pp pw mp mw sp sw,
      p.2.isSome = true := by
    rintro ⟨a, b⟩ hp
    exact h b (List.of_mem_zip hp).2
  have hnan :
      WheelFinder.nanPart (WheelFinder.scoredRows df bp pp pw mp mw sp sw) =
        [] :=
    nanPart_eq_nil _ hmem
  have htag :
      (WheelFinder.tagScore
        (WheelFinder.scoredRows df bp pp pw mp mw sp sw)).length =
        (WheelFinder.scoredRows df bp pp pw mp mw sp sw).length :=
    tagScore_length _ hmem
  have hslen : (WheelFinder.scoredRows df bp pp pw mp mw sp sw).length =
      (WheelFinder.brandFilter df bp).length := by
    unfold WheelFinder.scoredRows
    rw [List.length_zip, length_scoreRows]
    exact Nat.min_self _
  have hrows : (WheelFinder.generate_recs df bp pp pw mp mw sp sw).rows =
      ((List.insertionSort WheelFinder.scoreOrd
        (WheelFinder.tagScore
          (WheelFinder.scoredRows df bp pp pw mp mw sp sw))).take 5).map
        (fun p => p.2.1) := by
    unfold WheelFinder.generate_recs
    split_ifs with he
    · have he2 : WheelFinder.brandFilter df bp = [] := List.isEmpty_iff.mp he
      have hsc : WheelFinder.scoredRows df bp pp pw mp mw sp sw = [] := by
        unfold WheelFinder.scoredRows
        rw [he2]
        rfl
      rw [hsc]
      rfl
    · show WheelFinder.nlargest5 _ = _
      unfold WheelFinder.nlargest5 WheelFinder.numericSorted
      rw [hnan, List.append_nil, List.map_take]
  refine ⟨List.insertionSort WheelFinder.scoreOrd
      (WheelFinder.tagScore (WheelFinder.scoredRows df bp pp pw mp mw sp sw)),
    List.perm_insertionSort _ _, List.sorted_insertionSort _ _, hrows, ?_⟩
  rw [hrows, List.length_map, List.length_take, List.length_insertionSort,
    htag, hslen]

/-- Witness for C9: a two-row inventory with every weight 0, so every score
is numeric (equal to 0). -/
theorem c9_witness :
    (∀ s ∈ WheelFinder.scoreRows
        (WheelFinder.brandFilter
          [⟨"Civic", "Honda", 2024, some 25000, some 30, some 38, some 5⟩,
            ⟨"Camry", "Toyota", 2024, some 29000, some 28, some 39, some 5⟩]
          [])
        20000 0 30 0 5 0, s.isSome = true) ∧
    (∃ l : List (ℕ × WheelFinder.Row × ℚ),
      l.Perm (WheelFinder.tagScore (WheelFinder.scoredRows
        [⟨"Civic", "Honda", 2024, some 25000, some 30, some 38, some 5⟩,
          ⟨"Camry", "Toyota", 2024, some 29000, some 28, some 39, some 5⟩]
        [] 20000 0 30 0 5 0)) ∧
      l.Pairwise WheelFinder.scoreOrd ∧
      (WheelFinder.generate_recs
        [⟨"Civic", "Honda", 2024, some 25000, some 30, some 38, some 5⟩,
          ⟨"Camry", "Toyota", 2024, some 29000, some 28, some 39, some 5⟩]
        [] 20000 0 30 0 5 0).rows = (l.take 5).map (fun p => p.2.1) ∧
      (WheelFinder.generate_recs
        [⟨"Civic", "Honda", 2024, some 25000, some 30, some 38, some 5⟩,
          ⟨"Camry", "Toyota", 2024, some 29000, some 28, some 39, some 5⟩]
        [] 20000 0 30 0 5 0).rows.length =
        min 5 (WheelFinder.brandFilter
          [⟨"Civic", "Honda", 2024, some 25000, some 30, some 38, some 5⟩,
            ⟨"Camry", "Toyota", 2024, some 29000, some 28, some 39, some 5⟩]
          []).length) := by
  have h0 : ∀ s ∈ WheelFinder.scoreRows
      (WheelFinder.brandFilter
        [⟨"Civic", "Honda", 2024, some 25000, some 30, some 38, some 5⟩,
          ⟨"Camry", "Toyota", 2024, some 29000, some 28, some 39, some 5⟩]
        [])
      20000 0 30 0 5 0, s.isSome = true := by
    unfold WheelFinder.scoreRows WheelFinder.mpgStage WheelFinder.priceStage
    rw [axisScores_eq_of_nonpos _ _ _ _ (by norm_num),
      axisScores_eq_of_nonpos _ _ _ _ (by norm_num),
      axisScores_eq_of_nonpos _ _ _ _ (by norm_num)]
    intro s hs
    simp only [WheelFinder.initScores, List.mem_map] at hs
    obtain ⟨r, _, hr⟩ := hs
    rw [← hr]
    rfl
  exact ⟨h0, c9_top5 _ _ _ _ _ _ _ _ h0⟩

/-- Claim C10: in `generate_recs`, when a criterion has positive weight and
positive maximum diff, every filtered row whose value for that criterion is
absent (Price, Avg MPG, or Size is NaN) receives a NaN total score; and the
top-5 selection places all NaN-score rows strictly after the ranked numeric
rows — so a NaN row never precedes a numeric row in the result, and when at
least 5 rows have numeric scores the NaN rows are omitted entirely. -/
theorem c10_nan_scores (df : List WheelFinder.Row) (bp : List String)
    (pp mp sp : ℚ) (pw mw sw : ℤ) :
    (∀ m : ℚ, 0 < pw →
      WheelFinder.nanMax
        (WheelFinder.priceDiffs (WheelFinder.brandFilter df bp) pp) = some m →
      0 < m → ∀ (i : ℕ) (r : WheelFinder.Row),
        (WheelFinder.brandFilter df bp)[i]? = some r → r.price = none →
        (WheelFinder.scoreRows (WheelFinder.brandFilter df bp) pp pw mp mw sp
          sw)[i]? = some none) ∧
    (∀ m : ℚ, 0 < mw →
      WheelFinder.nanMax
        (WheelFinder.mpgDiffs (WheelFinder.brandFilter df bp) mp) = some m →
      0 < m → ∀ (i : ℕ) (r : WheelFinder.Row),
        (WheelFinder.brandFilter df bp)[i]? = some r →
        WheelFinder.avgMPG r = none →
        (WheelFinder.scoreRows (WheelFinder.brandFilter df bp) pp pw mp mw sp
          sw)[i]? = some none) ∧
    (∀ m : ℚ, 0 < sw →
      WheelFinder.nanMax
        (WheelFinder.sizeDiffs (WheelFinder.brandFilter df bp) sp) = some m →
      0 < m → ∀ (i : ℕ) (r : WheelFinder.Row),
        (WheelFinder.brandFilter df bp)[i]? = some r → r.size = none →
        (WheelFinder.scoreRows (WheelFinder.brandFilter df bp) pp pw mp mw sp
          sw)[i]? = some none) ∧
    ((WheelFinder.generate_recs df bp pp pw mp mw sp sw).rows =
      (WheelFinder.numericSorted
        (WheelFinder.scoredRows df bp pp pw mp mw sp sw)).take 5 ++
        (WheelFinder.nanPart
          (WheelFinder.scoredRows df bp pp pw mp mw sp sw)).take
          (5 - (WheelFinder.numericSorted
            (WheelFinder.scoredRows df bp pp pw mp mw sp sw)).length)) ∧
    (5 ≤ (WheelFinder.numericSorted
        (WheelFinder.scoredRows df bp pp pw mp mw sp sw)).length →
      (WheelFinder.generate_recs df bp pp pw mp mw sp sw).rows =
        (WheelFinder.numericSorted
          (WheelFinder.scoredRows df bp pp pw mp mw sp sw)).take 5) := by
  have hplace : (WheelFinder.generate_recs df bp pp pw mp mw sp sw).rows =
      (WheelFinder.numericSorted
        (WheelFinder.scoredRows df bp pp pw mp mw sp sw)).take 5 ++
        (WheelFinder.nanPart
          (WheelFinder.scoredRows df bp pp pw mp mw sp sw)).take
          (5 - (WheelFinder.numericSorted
            (WheelFinder.scoredRows df bp pp pw mp mw sp sw)).length) := by
    unfold WheelFinder.generate_recs
    split_ifs with he
    · have he2 : WheelFinder.brandFilter df bp = [] := List.isEmpty_iff.mp he
      have hsc : WheelFinder.scoredRows df bp pp pw mp mw sp sw = [] := by
        unfold WheelFinder.scoredRows
        rw [he2]
        rfl
      rw [hsc]
      rfl
    · show WheelFinder.nlargest5 _ = _
      unfold WheelFinder.nlargest5
      rw [List.take_append_eq_append_take]
  refine ⟨?_, ?_, ?_, hplace, ?_⟩
  · intro m hw hm hm0 i r hr hp
    obtain ⟨hi, -⟩ := List.getElem?_eq_some_iff.mp hr
    have hdi : (WheelFinder.priceDiffs (WheelFinder.brandFilter df bp)
        pp)[i]? = some none := by
      unfold WheelFinder.priceDiffs
      rw [List.getElem?_map, hr]
      simp [hp, WheelFinder.osub, WheelFinder.oabs]
    have hps : (WheelFinder.priceStage (WheelFinder.brandFilter df bp) pp
        pw)[i]? = some none := by
      unfold WheelFinder.priceStage
      rw [axisScores_eq_of_pos_max _ _ _ _ m hw hm hm0]
      have hin : (WheelFinder.initScores
          (WheelFinder.brandFilter df bp))[i]? = some (some 0) := by
        unfold WheelFinder.initScores
        rw [List.getElem?_map, hr]
        rfl
      rw [getElem?_zipWith_some _ _ _ i (some 0) none hin hdi]
      rfl
    have hms : (WheelFinder.mpgStage (WheelFinder.brandFilter df bp) pp pw mp
        mw)[i]? = some none := by
      unfold WheelFinder.mpgStage
      exact axisScores_none _ _ _ _ i
        (by simpa [WheelFinder.mpgDiffs] using hi) hps
    unfold WheelFinder.scoreRows
    exact axisScores_none _ _ _ _ i
      (by simpa [WheelFinder.sizeDiffs] using hi) hms
  · intro m hw hm hm0 i r hr hmpg
    obtain ⟨hi, -⟩ := List.getElem?_eq_some_iff.mp hr
    have hdi : (WheelFinder.mpgDiffs (WheelFinder.brandFilter df bp)
        mp)[i]? = some none := by
      unfold WheelFinder.mpgDiffs
      rw [List.getElem?_map, hr]
      simp [hmpg, WheelFinder.osub, WheelFinder.oabs]
    obtain ⟨s, hs⟩ : ∃ s, (WheelFinder.priceStage
        (WheelFinder.brandFilter df bp) pp pw)[i]? = some s :=
      ⟨_, List.getElem?_eq_getElem (by rw [length_priceStage]; exact hi)⟩
    have hms : (WheelFinder.mpgStage (WheelFinder.brandFilter df bp) pp pw mp
        mw)[i]? = some none := by
      unfold WheelFinder.mpgStage
      rw [axisScores_eq_of_pos_max _ _ _ _ m hw hm hm0]
      rw [getElem?_zipWith_some _ _ _ i s none hs hdi]
      cases s <;> rfl
    unfold WheelFinder.scoreRows
    exact axisScores_none _ _ _ _ i
      (by simpa [WheelFinder.sizeDiffs] using hi) hms
  · intro m hw hm hm0 i r hr hsz
    obtain ⟨hi, -⟩ := List.getElem?_eq_some_iff.mp hr
    have hdi : (WheelFinder.sizeDiffs (WheelFinder.brandFilter df bp)
        sp)[i]? = some none := by
      unfold WheelFinder.sizeDiffs
      rw [List.getElem?_map, hr]
      simp [hsz, WheelFinder.osub, WheelFinder.oabs]
    obtain ⟨s, hs⟩ : ∃ s, (WheelFinder.mpgStage
        (WheelFinder.brandFilter df bp) pp pw mp mw)[i]? = some s :=
      ⟨_, List.getElem?_eq_getElem (by rw [length_mpgStage]; exact hi)⟩
    unfold WheelFinder.scoreRows
    rw [axisScores_eq_of_pos_max _ _ _ _ m hw hm hm0]
    rw [getElem?_zipWith_some _ _ _ i s none hs hdi]
    cases s <;> rfl
  · intro h5
    rw [hplace]
    have hz : 5 - (WheelFinder.numericSorted
        (WheelFinder.scoredRows df bp pp pw mp mw sp sw)).length = 0 := by
      omega
    rw [hz]
    simp

/-- Witness for C10: with price weight 1 and maximum price diff 10000 > 0,
the row with an absent Price gets a NaN total score; and on an all-numeric
five-row inventory the result is exactly the ranked numeric block. -/
theorem c10_witness :
    WheelFinder.nanMax (WheelFinder.priceDiffs
      (WheelFinder.brandFilter
        [⟨"A", "Honda", 2024, none, some 30, some 38, some 5⟩,
          ⟨"B", "Toyota", 2024, some 30000, some 28, some 39, some 5⟩] [])
      20000) = some 10000 ∧
    (WheelFinder.scoreRows
      (WheelFinder.brandFilter
        [⟨"A", "Honda", 2024, none, some 30, some 38, some 5⟩,
          ⟨"B", "Toyota", 2024, some 30000, some 28, some 39, some 5⟩] [])
      20000 1 30 0 5 0)[0]? = some none ∧
    5 ≤ (WheelFinder.numericSorted (WheelFinder.scoredRows
      [⟨"A", "Honda", 2024, some 1, some 1, some 1, some 1⟩,
        ⟨"B", "Honda", 2024, some 2, some 2, some 2, some 2⟩,
        ⟨"C", "Honda", 2024, some 3, some 3, some 3, some 3⟩,
        ⟨"D", "Honda", 2024, some 4, some 4, some 4, some 4⟩,
        ⟨"E", "Honda", 2024, some 5, some 5, some 5, some 5⟩]
      [] 0 0 0 0 0 0)).length ∧
    (WheelFinder.generate_recs
      [⟨"A", "Honda", 2024, some 1, some 1, some 1, some 1⟩,
        ⟨"B", "Honda", 2024, some 2, some 2, some 2, some 2⟩,
        ⟨"C", "Honda", 2024, some 3, some 3, some 3, some 3⟩,
        ⟨"D", "Honda", 2024, some 4, some 4, some 4, some 4⟩,
        ⟨"E", "Honda", 2024, some 5, some 5, some 5, some 5⟩]
      [] 0 0 0 0 0 0).rows =
      (WheelFinder.numericSorted (WheelFinder.scoredRows
        [⟨"A", "Honda", 2024, some 1, some 1, some 1, some 1⟩,
          ⟨"B", "Honda", 2024, some 2, some 2, some 2, some 2⟩,
          ⟨"C", "Honda", 2024, some 3, some 3, some 3, some 3⟩,
          ⟨"D", "Honda", 2024, some 4, some 4, some 4, some 4⟩,
          ⟨"E", "Honda", 2024, some 5, some 5, some 5, some 5⟩]
        [] 0 0 0 0 0 0)).take 5 := by
  have hm : WheelFinder.nanMax (WheelFinder.priceDiffs
      (WheelFinder.brandFilter
        [⟨"A", "Honda", 2024, none, some 30, some 38, some 5⟩,
          ⟨"B", "Toyota", 2024, some 30000, some 28, some 39, some 5⟩] [])
      20000) = some 10000 := by
    simp only [WheelFinder.priceDiffs, WheelFinder.brandFilter,
      List.isEmpty_nil, if_pos, List.map_cons, List.map_nil]
    norm_num [WheelFinder.osub, WheelFinder.oabs, WheelFinder.nanMax]
    rfl
  have h5 : 5 ≤ (WheelFinder.numericSorted (WheelFinder.scoredRows
      [⟨"A", "Honda", 2024, some 1, some 1, some 1, some 1⟩,
        ⟨"B", "Honda", 2024, some 2, some 2, some 2, some 2⟩,
        ⟨"C", "Honda", 2024, some 3, some 3, some 3, some 3⟩,
        ⟨"D", "Honda", 2024, some 4, some 4, some 4, some 4⟩,
        ⟨"E", "Honda", 2024, some 5, some 5, some 5, some 5⟩]
      [] 0 0 0 0 0 0)).length := by decide
  exact ⟨hm,
    (c10_nan_scores
      [⟨"A", "Honda", 2024, none, some 30, some 38, some 5⟩,
        ⟨"B", "Toyota", 2024, some 30000, some 28, some 39, some 5⟩]
      [] 20000 30 5 1 0 0).1 10000 (by norm_num) hm (by norm_num) 0
      ⟨"A", "Honda", 2024, none, some 30, some 38, some 5⟩ rfl rfl,
    h5,
    (c10_nan_scores
      [⟨"A", "Honda", 2024, some 1, some 1, some 1, some 1⟩,
        ⟨"B", "Honda", 2024, some 2, some 2, some 2, some 2⟩,
        ⟨"C", "Honda", 2024, some 3, some 3, some 3, some 3⟩,
        ⟨"D", "Honda", 2024, some 4, some 4, some 4, some 4⟩,
        ⟨"E", "Honda", 2024, some 5, some 5, some 5, some 5⟩]
      [] 0 0 0 0 0 0).2.2.2.2 h5⟩

/-- Witness for C8: an out-of-range first match, a non-matching pattern,
an out-of-range third match, and an in-range fourth match yield that
fourth value. -/
theorem c8_witness :
    Honda.extract_price [some 5000, none, some 250000, some 25000] =
      some 25000 := by
  exact (c8_price [some 5000, none, some 250000, some 25000]).2
    [some 5000, none, some 250000] 25000 [] rfl
    (by
      intro w hw p hp
      fin_cases hw
      · rw [Option.some.injEq] at hp
        exact Or.inl (by rw [← hp]; norm_num)
      · exact Option.noConfusion hp
      · rw [Option.some.injEq] at hp
        exact Or.inr (by rw [← hp]; norm_num))
    (by norm_num) (by norm_num)
